import Mathlib

/-!
Shallow embedding of `src/linux/runner/my_application.cc` (the Linux desktop
embedding shell of the BizSync application) together with proofs of the
testable properties stated in its specification.

The process environment is modelled as a total map from variable names to
optional values.  The external windowing toolkit objects (default display,
screen, window-manager name) are modelled as explicit inputs, since the C
code only inspects them through boolean predicates and one string accessor.
-/

namespace BizSync

/-- The process environment: each variable name is either unset (`none`)
or set to a string value. -/
def Env : Type := String → Option String

/-- `getenv`: read a variable from the environment. -/
def getenv (e : Env) (name : String) : Option String := e name

/-- POSIX `setenv e name value overwrite`: sets `name` to `value`; when
`overwrite = 0` and the variable is already set, the environment is
unchanged. -/
def setenv (e : Env) (name value : String) (overwrite : Nat) : Env :=
  fun m =>
    if m = name then
      (if overwrite ≠ 0 ∨ e name = none then some value else e name)
    else e m

/-- Inner loop of C `strstr`: does `needle` occur (as a contiguous run)
starting at some position of the list?  At each position we test whether
`needle` is a prefix of the remaining haystack. -/
def strstr_loop (needle : List Char) : List Char → Bool
  | [] => decide (needle = [])
  | c :: rest => decide (needle <+: (c :: rest)) || strstr_loop needle rest

/-- C `strstr hay needle != NULL`: `needle` occurs as a contiguous
substring of `hay`. -/
def strstr (hay needle : String) : Bool :=
  strstr_loop needle.toList hay.toList

/-- The `GL_RENDERER` branch of the detector: the variable is set and its
value contains one of the three known software-rasterizer names. -/
def gl_renderer_check (e : Env) : Bool :=
  match getenv e "GL_RENDERER" with
  | some g => strstr g "llvmpipe" || strstr g "softpipe" || strstr g "swrast"
  | none => false

/-- `is_mesa_software_rendering` from `my_application.cc` lines 23-40:
returns true when `LIBGL_ALWAYS_SOFTWARE` is set to `"1"`, or when
`GL_RENDERER` is set and contains one of the three software-rasterizer
tokens. -/
def is_mesa_software_rendering (e : Env) : Bool :=
  match getenv e "LIBGL_ALWAYS_SOFTWARE" with
  | some r => if r = "1" then true else gl_renderer_check e
  | none => gl_renderer_check e

/-- The toolkit display object, reduced to the predicates and accessor the
C code queries on it. -/
structure GdkDisplay : Type where
  is_wayland : Bool
  is_x11 : Bool
  screen_is_x11 : Bool
  window_manager_name : Option String
deriving DecidableEq, Repr

/-- The twelve environment variables written unconditionally by
`configure_mesa_rendering`, in source order, with their literal values. -/
def mesa_env_assignments : List (String × String) :=
  [("vblank_mode", "0"),
   ("LIBGL_DRI3_DISABLE", "1"),
   ("CLUTTER_PAINT", "disable-clipped-redraws:disable-culling"),
   ("MESA_GLSL_CACHE_DISABLE", "1"),
   ("MESA_SHADER_CACHE_DISABLE", "1"),
   ("mesa_glthread", "false"),
   ("MESA_NO_MEMOBJ_CACHE", "1"),
   ("MESA_DEBUG", "flush"),
   ("force_s3tc_enable", "false"),
   ("MESA_EXTENSION_OVERRIDE", "-GL_ARB_buffer_storage -GL_EXT_buffer_storage"),
   ("LP_NUM_THREADS", "1"),
   ("MESA_FBO_CACHE", "0")]

/-- All variable names `configure_mesa_rendering` may write: the twelve
workaround variables plus the conditional `GDK_BACKEND`. -/
def mesa_written_names : List String :=
  mesa_env_assignments.map Prod.fst ++ ["GDK_BACKEND"]

/-- The twelve unconditional `setenv (..., ..., 1)` calls of
`configure_mesa_rendering` (`my_application.cc` lines 46-80), in source
order. -/
def apply_mesa_workarounds (e : Env) : Env :=
  let e := setenv e "vblank_mode" "0" 1
  let e := setenv e "LIBGL_DRI3_DISABLE" "1" 1
  let e := setenv e "CLUTTER_PAINT" "disable-clipped-redraws:disable-culling" 1
  let e := setenv e "MESA_GLSL_CACHE_DISABLE" "1" 1
  let e := setenv e "MESA_SHADER_CACHE_DISABLE" "1" 1
  let e := setenv e "mesa_glthread" "false" 1
  let e := setenv e "MESA_NO_MEMOBJ_CACHE" "1" 1
  let e := setenv e "MESA_DEBUG" "flush" 1
  let e := setenv e "force_s3tc_enable" "false" 1
  let e := setenv e "MESA_EXTENSION_OVERRIDE" "-GL_ARB_buffer_storage -GL_EXT_buffer_storage" 1
  let e := setenv e "LP_NUM_THREADS" "1" 1
  let e := setenv e "MESA_FBO_CACHE" "0" 1
  e

/-- `configure_mesa_rendering` from `my_application.cc` lines 43-103
(the environment mutation; the `g_print` diagnostics do not affect the
environment).  `display` is the result of `gdk_display_get_default ()`.
The `GDK_BACKEND` read happens after the twelve writes, as in the
source. -/
def configure_mesa_rendering (e : Env) (display : Option GdkDisplay) : Env :=
  if is_mesa_software_rendering e = true then
    let e2 := apply_mesa_workarounds e
    let gdk_backend := getenv e2 "GDK_BACKEND"
    if gdk_backend = none ∨ gdk_backend = some "wayland" then
      match display with
      | some d => if d.is_x11 = true then setenv e2 "GDK_BACKEND" "x11" 1 else e2
      | none => e2
    else e2
  else e

/-- The condition under which `configure_mesa_rendering` forces
`GDK_BACKEND` to `"x11"` (stated over the pre-call environment):
`GDK_BACKEND` unset or `"wayland"`, a default display exists, and it is
an X11 display. -/
def force_x11_condition (e : Env) (display : Option GdkDisplay) : Bool :=
  (decide (e "GDK_BACKEND" = none) || decide (e "GDK_BACKEND" = some "wayland")) &&
  (match display with
   | some d => d.is_x11
   | none => false)

/-- Result of one invocation of the `local_command_line` virtual: the
argument list stored on the application object, the value written through
`exit_status`, how many times `g_application_activate` was invoked,
whether `g_warning` was emitted, and the `gboolean` the handler returned. -/
structure CmdLineOutcome : Type where
  dart_entrypoint_arguments : List String
  exit_status : Nat
  activate_count : Nat
  warning_logged : Bool
  returned : Bool
deriving DecidableEq, Repr

/-- `my_application_local_command_line` from `my_application.cc` lines
211-227.  `arguments` is the NULL-terminated argv modelled as a list (the
binary name at index 0); `*arguments + 1` followed by `g_strdupv` copies
the tail.  `register_ok` is the result of the external
`g_application_register` call. -/
def my_application_local_command_line
    (arguments : List String) (register_ok : Bool) : CmdLineOutcome :=
  let dart_entrypoint_arguments := arguments.drop 1
  if register_ok = true then
    { dart_entrypoint_arguments := dart_entrypoint_arguments
      exit_status := 0
      activate_count := 1
      warning_logged := false
      returned := true }
  else
    { dart_entrypoint_arguments := dart_entrypoint_arguments
      exit_status := 1
      activate_count := 0
      warning_logged := true
      returned := true }

/-- GLib `g_strcmp0`: NULL-tolerant string comparison; returns 0 exactly
when both are NULL or both are the same string. -/
def g_strcmp0 (a b : Option String) : Int :=
  match a, b with
  | none, none => 0
  | none, some _ => -1
  | some _, none => 1
  | some x, some y => if x < y then -1 else if x = y then 0 else 1

/-- The header-bar decision of `my_application_activate`
(`my_application.cc` lines 116-154): `use_header_bar` starts TRUE; a
Wayland display keeps it TRUE; an X11 display whose (X11) screen reports a
window-manager name other than "GNOME Shell" (per `g_strcmp0`) sets it to
FALSE.  `display` is the result of `gdk_display_get_default ()`. -/
def compute_use_header_bar (display : Option GdkDisplay) : Bool :=
  let use0 := true
  let use1 :=
    match display with
    | some d => if d.is_wayland = true then true else use0
    | none => use0
  match display with
  | some d =>
    if d.is_x11 = true then
      if d.screen_is_x11 = true then
        if g_strcmp0 d.window_manager_name (some "GNOME Shell") ≠ 0 then false
        else use1
      else use1
    else use1
  | none => use1

/-- The slice of the application object and GObject machinery that
disposal touches: the stored argument list (NULL when unset), a count of
`g_strfreev` invocations actually performed, and a count of delegations to
the base-class `dispose`. -/
structure DisposeState : Type where
  dart_entrypoint_arguments : Option (List String)
  strfreev_count : Nat
  base_dispose_count : Nat
deriving DecidableEq, Repr

/-- GLib `g_clear_pointer (&self->dart_entrypoint_arguments, g_strfreev)`:
when the pointer is non-NULL, free it (counted) and set it to NULL; when
it is already NULL, do nothing. -/
def g_clear_pointer_strfreev (s : DisposeState) : DisposeState :=
  match s.dart_entrypoint_arguments with
  | none => s
  | some _ =>
    { s with dart_entrypoint_arguments := none
             strfreev_count := s.strfreev_count + 1 }

/-- The base-class (`G_OBJECT_CLASS (my_application_parent_class)`)
dispose, modelled as the external call it is: it is counted and touches
nothing this file owns. -/
def base_object_dispose (s : DisposeState) : DisposeState :=
  { s with base_dispose_count := s.base_dispose_count + 1 }

/-- `my_application_dispose` from `my_application.cc` lines 251-255:
clear-and-free the stored argument list, then delegate to the base
dispose. -/
def my_application_dispose (s : DisposeState) : DisposeState :=
  base_object_dispose (g_clear_pointer_strfreev s)

/-- Events observable during the startup virtual, in the order they are
performed. -/
inductive StartupEvent : Type where
  | configure_env : StartupEvent
  | base_startup : StartupEvent
deriving DecidableEq, Repr

/-- World state threaded through the startup virtual: the process
environment, the default display probe, the environment snapshot taken by
the embedded engine when it creates its graphics context (the engine reads
the environment once, at context creation), and an event log. -/
structure StartupWorld : Type where
  env : Env
  display : Option GdkDisplay
  engine_env_snapshot : Option Env
  log : List StartupEvent

/-- The external base framework startup
(`G_APPLICATION_CLASS (my_application_parent_class)->startup`), modelled
per the spec's rationale: delegating to it leads to the embedded UI
engine initializing its graphics context, which reads the process
environment once at creation — captured as a snapshot of the environment
at the moment of delegation. -/
def base_framework_startup (w : StartupWorld) : StartupWorld :=
  { w with engine_env_snapshot := some w.env
           log := w.log ++ [StartupEvent.base_startup] }

/-- `my_application_startup` from `my_application.cc` lines 230-239:
run `configure_mesa_rendering`, then delegate to the base framework
startup. -/
def my_application_startup (w : StartupWorld) : StartupWorld :=
  let w1 : StartupWorld :=
    { w with env := configure_mesa_rendering w.env w.display
             log := w.log ++ [StartupEvent.configure_env] }
  base_framework_startup w1

/-- A concrete environment for witnesses: `LIBGL_ALWAYS_SOFTWARE=1`,
a pre-existing `vblank_mode=3` to exercise overwriting, `GDK_BACKEND`
unset, everything else unset. -/
def env_soft : Env :=
  fun n =>
    if n = "LIBGL_ALWAYS_SOFTWARE" then some "1"
    else if n = "vblank_mode" then some "3"
    else none

/-- A concrete environment for witnesses: nothing set at all. -/
def env_empty : Env := fun _ => none

/-- A concrete X11 display for witnesses. -/
def disp_x11 : Option GdkDisplay :=
  some { is_wayland := false
         is_x11 := true
         screen_is_x11 := true
         window_manager_name := some "Xfwm4" }

/-! ## Helper lemmas -/

theorem setenv_overwrite_apply (e : Env) (name value m : String) :
    setenv e name value 1 m = if m = name then some value else e m := by
  simp [setenv]

theorem strstr_loop_iff (needle hay : List Char) :
    strstr_loop needle hay = true ↔ needle <:+: hay := by
  induction hay with
  | nil =>
      simp only [strstr_loop, decide_eq_true_eq]
      exact ( List.infix_nil).symm
  | cons c rest ih =>
      simp only [strstr_loop, Bool.or_eq_true, decide_eq_true_eq, ih]
      exact ( List.infix_cons_iff).symm

theorem strstr_iff (hay needle : String) :
    strstr hay needle = true ↔ needle.toList <:+: hay.toList :=
  strstr_loop_iff _ _

theorem gl_renderer_check_iff (e : Env) :
    gl_renderer_check e = true ↔
      ∃ g, e "GL_RENDERER" = some g ∧
        ("llvmpipe".toList <:+: g.toList ∨ "softpipe".toList <:+: g.toList ∨
          "swrast".toList <:+: g.toList) := by
  unfold gl_renderer_check getenv
  cases h : e "GL_RENDERER" with
  | none => simp
  | some g => simp [strstr_iff, or_assoc]

theorem g_strcmp0_eq_zero_iff (a b : Option String) : g_strcmp0 a b = 0 ↔ a = b := by
  unfold g_strcmp0
  cases a with
  | none => cases b <;> simp
  | some x =>
    cases b with
    | none => simp
    | some y =>
      by_cases hlt : x < y
      · simp only [if_pos hlt]
        constructor
        · intro hc; exact absurd hc (by decide)
        · intro hc
          exact absurd (Option.some.inj hc) (ne_of_lt hlt)
      · simp only [if_neg hlt]
        by_cases heq : x = y
        · simp [heq]
        · simp only [if_neg heq]
          constructor
          · intro hc; exact absurd hc (by decide)
          · intro hc; exact absurd (Option.some.inj hc) heq

theorem apply_mesa_workarounds_sets (e : Env) :
    ∀ p ∈ mesa_env_assignments, apply_mesa_workarounds e p.1 = some p.2 := by
  intro p hp
  fin_cases hp <;> rfl

theorem apply_mesa_workarounds_gdk (e : Env) :
    apply_mesa_workarounds e "GDK_BACKEND" = e "GDK_BACKEND" := rfl

theorem apply_mesa_workarounds_other (e : Env) (n : String)
    (h : ∀ p ∈ mesa_env_assignments, n ≠ p.1) :
    apply_mesa_workarounds e n = e n := by
  simp only [mesa_env_assignments, List.mem_cons, List.not_mem_nil, or_false,
    forall_eq_or_imp, forall_eq] at h
  obtain ⟨h1, h2, h3, h4, h5, h6, h7, h8, h9, h10, h11, h12⟩ := h
  simp [apply_mesa_workarounds, setenv_overwrite_apply,
    h1, h2, h3, h4, h5, h6, h7, h8, h9, h10, h11, h12]

theorem configure_apply_ne_gdk (e : Env) (display : Option GdkDisplay) (n : String)
    (h : is_mesa_software_rendering e = true) (hn : n ≠ "GDK_BACKEND") :
    configure_mesa_rendering e display n = apply_mesa_workarounds e n := by
  unfold configure_mesa_rendering
  rw [if_pos h]
  split
  · cases display with
    | none => rfl
    | some d =>
      by_cases hx : d.is_x11 = true
      · simp only [if_pos hx, setenv_overwrite_apply, if_neg hn]
      · simp only [if_neg hx]
  · rfl

theorem configure_sets (e : Env) (display : Option GdkDisplay)
    (h : is_mesa_software_rendering e = true) :
    ∀ p ∈ mesa_env_assignments, configure_mesa_rendering e display p.1 = some p.2 := by
  intro p hp
  have hne : p.1 ≠ "GDK_BACKEND" := by fin_cases hp <;> decide
  rw [configure_apply_ne_gdk e display p.1 h hne]
  exact apply_mesa_workarounds_sets e p hp

theorem configure_other (e : Env) (display : Option GdkDisplay)
    (h : is_mesa_software_rendering e = true) (n : String)
    (hn : n ∉ mesa_written_names) :
    configure_mesa_rendering e display n = e n := by
  have hgdk : n ≠ "GDK_BACKEND" := by
    intro hq
    apply hn
    rw [hq]
    unfold mesa_written_names
    exact List.mem_append_right _ (List.mem_singleton.mpr rfl)
  have hother : ∀ p ∈ mesa_env_assignments, n ≠ p.1 := by
    intro p hp hq
    apply hn
    rw [hq]
    unfold mesa_written_names
    exact List.mem_append_left _ (List.mem_map_of_mem Prod.fst hp)
  rw [configure_apply_ne_gdk e display n h hgdk]
  exact apply_mesa_workarounds_other e n hother

theorem configure_gdk (e : Env) (display : Option GdkDisplay)
    (h : is_mesa_software_rendering e = true) :
    configure_mesa_rendering e display "GDK_BACKEND" =
      (if force_x11_condition e display = true then some "x11"
       else e "GDK_BACKEND") := by
  unfold configure_mesa_rendering force_x11_condition
  rw [if_pos h]
  simp only [getenv, apply_mesa_workarounds_gdk]
  cases display with
  | none =>
    simp only [Bool.and_eq_true]
    by_cases hc : e "GDK_BACKEND" = none ∨ e "GDK_BACKEND" = some "wayland"
    · rw [if_pos hc]
      simp [apply_mesa_workarounds_gdk]
    · rw [if_neg hc]
      simp [apply_mesa_workarounds_gdk]
  | some d =>
    by_cases hc : e "GDK_BACKEND" = none ∨ e "GDK_BACKEND" = some "wayland"
    · rw [if_pos hc]
      by_cases hx : d.is_x11 = true
      · have hcond : ((decide (e "GDK_BACKEND" = none) ||
            decide (e "GDK_BACKEND" = some "wayland")) && d.is_x11) = true := by
          rcases hc with hc | hc <;> simp [hc, hx]
        simp only [if_pos hx, hcond, setenv_overwrite_apply]
        simp
      · have hcond : ((decide (e "GDK_BACKEND" = none) ||
            decide (e "GDK_BACKEND" = some "wayland")) && d.is_x11) = false := by
          cases hb : d.is_x11 with
          | true => exact absurd hb hx
          | false => simp
        simp only [if_neg hx, hcond, apply_mesa_workarounds_gdk]
        simp
    · rw [if_neg hc]
      have hcond : ((decide (e "GDK_BACKEND" = none) ||
          decide (e "GDK_BACKEND" = some "wayland")) && d.is_x11) = false := by
        push_neg at hc
        simp [hc.1, hc.2]
      simp only [hcond, apply_mesa_workarounds_gdk]
      simp

/-! ## Claim theorems -/

/-- C1: for every value of the two rendering-related environment variables,
`is_mesa_software_rendering` returns true iff `LIBGL_ALWAYS_SOFTWARE` is set
and equals "1", or `GL_RENDERER` is set and contains "llvmpipe", "softpipe"
or "swrast" as a case-sensitive substring; otherwise it returns false. -/
theorem detector_true_iff (e : Env) :
    is_mesa_software_rendering e = true ↔
      (e "LIBGL_ALWAYS_SOFTWARE" = some "1" ∨
        ∃ g, e "GL_RENDERER" = some g ∧
          ("llvmpipe".toList <:+: g.toList ∨ "softpipe".toList <:+: g.toList ∨
            "swrast".toList <:+: g.toList)) := by
  unfold is_mesa_software_rendering getenv
  cases h1 : e "LIBGL_ALWAYS_SOFTWARE" with
  | none => simp [h1, gl_renderer_check_iff]
  | some r =>
    by_cases hr : r = "1"
    · simp [h1, hr]
    · simp [h1, hr, gl_renderer_check_iff]

/-- C2: when the detector returns true, `configure_mesa_rendering` sets the
twelve workaround variables to their literal values, writes `GDK_BACKEND`
to "x11" exactly when it was unset or "wayland" and the default display
exists and is X11, and changes nothing else. -/
theorem configure_writes_exactly (e : Env) (display : Option GdkDisplay)
    (h : is_mesa_software_rendering e = true) :
    (∀ p ∈ mesa_env_assignments,
        configure_mesa_rendering e display p.1 = some p.2) ∧
    configure_mesa_rendering e display "GDK_BACKEND" =
      (if force_x11_condition e display = true then some "x11"
       else e "GDK_BACKEND") ∧
    (∀ n, n ∉ mesa_written_names → configure_mesa_rendering e display n = e n) :=
  ⟨configure_sets e display h, configure_gdk e display h,
    fun n hn => configure_other e display h n hn⟩

/-- Witness for C2: concrete software-rendering environment and X11
display; a workaround variable is set, `GDK_BACKEND` (unset before) is
forced to "x11", and an unrelated variable is untouched. -/
theorem configure_writes_exactly_witness :
    configure_mesa_rendering env_soft disp_x11 "LIBGL_DRI3_DISABLE" = some "1" ∧
    configure_mesa_rendering env_soft disp_x11 "GDK_BACKEND" = some "x11" ∧
    configure_mesa_rendering env_soft disp_x11 "HOME" = env_soft "HOME" :=
  ⟨(configure_writes_exactly env_soft disp_x11 (by decide)).1
      ("LIBGL_DRI3_DISABLE", "1") (by decide),
   ((configure_writes_exactly env_soft disp_x11 (by decide)).2.1).trans (by decide),
   (configure_writes_exactly env_soft disp_x11 (by decide)).2.2 "HOME" (by decide)⟩

/-- C3: when the detector returns false, `configure_mesa_rendering`
performs no environment mutation at all: every variable has the same value
after the call as before. -/
theorem configure_noop_of_not_software (e : Env) (display : Option GdkDisplay)
    (h : is_mesa_software_rendering e = false) :
    ∀ n, configure_mesa_rendering e display n = e n := by
  intro n
  unfold configure_mesa_rendering
  rw [if_neg (by simp [h])]

/-- Witness for C3: empty environment (detector false), nothing written. -/
theorem configure_noop_of_not_software_witness :
    is_mesa_software_rendering env_empty = false ∧
    configure_mesa_rendering env_empty disp_x11 "vblank_mode" =
      env_empty "vblank_mode" :=
  ⟨by decide,
   configure_noop_of_not_software env_empty disp_x11 (by decide) "vblank_mode"⟩

/-- C4: in the local command-line handler, registration failure logs a
warning, sets exit status 1 and never activates; registration success
activates exactly once and sets exit status 0. -/
theorem local_command_line_status (args : List String) (ok : Bool) :
    (my_application_local_command_line args ok).exit_status =
      (if ok = true then 0 else 1) ∧
    (my_application_local_command_line args ok).activate_count =
      (if ok = true then 1 else 0) ∧
    (my_application_local_command_line args ok).warning_logged = (!ok) := by
  cases ok <;> simp [my_application_local_command_line]

/-- C5: the handler stores exactly the input minus its first element as
dart entrypoint arguments — one element stripped regardless of input
length, the empty list when there are zero extra arguments. -/
theorem local_command_line_strips_argv0 (args : List String) (ok : Bool) :
    (my_application_local_command_line args ok).dart_entrypoint_arguments =
      args.drop 1 ∧
    (my_application_local_command_line args ok).dart_entrypoint_arguments.length =
      args.length - 1 ∧
    (∀ i : Nat,
      (my_application_local_command_line args ok).dart_entrypoint_arguments[i]? =
        args[1 + i]?) ∧
    (args.length = 1 →
      (my_application_local_command_line args ok).dart_entrypoint_arguments = []) := by
  have hd : (my_application_local_command_line args ok).dart_entrypoint_arguments
      = args.drop 1 := by
    cases ok <;> rfl
  refine ⟨hd, ?_, ?_, ?_⟩
  · rw [hd]; simp
  · intro i; rw [hd]; exact List.getElem?_drop args 1 i
  · intro hlen; rw [hd]; exact List.drop_eq_nil_iff.mpr (by omega)

/-- Witness for C5: argv holding only the binary name yields an empty
stored list. -/
theorem local_command_line_strips_argv0_witness :
    (my_application_local_command_line ["bizsync"] true).dart_entrypoint_arguments
      = [] :=
  (local_command_line_strips_argv0 ["bizsync"] true).2.2.2 rfl

/-- C6: header-bar decision — Wayland display: header bar; X11 display
whose window-manager name is "GNOME Shell": header bar; X11 display with
any other window-manager name: plain title; backend undetermined (no
display, or neither Wayland nor X11): header bar. -/
theorem use_header_bar_decision :
    (∀ d : GdkDisplay, d.is_wayland = true → d.is_x11 = false →
      compute_use_header_bar (some d) = true) ∧
    (∀ d : GdkDisplay, d.is_x11 = true → d.screen_is_x11 = true →
      d.window_manager_name = some "GNOME Shell" →
      compute_use_header_bar (some d) = true) ∧
    (∀ d : GdkDisplay, d.is_x11 = true → d.screen_is_x11 = true →
      d.window_manager_name ≠ some "GNOME Shell" →
      compute_use_header_bar (some d) = false) ∧
    compute_use_header_bar none = true ∧
    (∀ d : GdkDisplay, d.is_wayland = false → d.is_x11 = false →
      compute_use_header_bar (some d) = true) := by
  refine ⟨?_, ?_, ?_, rfl, ?_⟩
  · intro d hw hx
    simp [compute_use_header_bar, hw, hx]
  · intro d hx hs hwm
    have h0 : g_strcmp0 d.window_manager_name (some "GNOME Shell") = 0 :=
      (g_strcmp0_eq_zero_iff _ _).mpr hwm
    simp [compute_use_header_bar, hx, hs, h0]
  · intro d hx hs hwm
    have h0 : g_strcmp0 d.window_manager_name (some "GNOME Shell") ≠ 0 :=
      fun hc => hwm ((g_strcmp0_eq_zero_iff _ _).mp hc)
    simp [compute_use_header_bar, hx, hs, h0]
  · intro d hw hx
    simp [compute_use_header_bar, hw, hx]

/-- Witness for C6: a concrete X11 display running Xfwm4 gets a plain
title (no header bar). -/
theorem use_header_bar_decision_witness :
    compute_use_header_bar disp_x11 = false :=
  use_header_bar_decision.2.2.1
    ⟨false, true, true, some "Xfwm4"⟩ rfl rfl (by decide)

/-- C7: disposal clears and frees the stored argument list exactly once,
delegates to base disposal, and a second disposal frees nothing further
(no double-free) because the pointer is cleared when freed. -/
theorem dispose_frees_once_and_safe (s : DisposeState) :
    (my_application_dispose s).dart_entrypoint_arguments = none ∧
    (my_application_dispose s).strfreev_count =
      (if s.dart_entrypoint_arguments.isSome = true then s.strfreev_count + 1
       else s.strfreev_count) ∧
    (my_application_dispose s).base_dispose_count = s.base_dispose_count + 1 ∧
    (my_application_dispose (my_application_dispose s)).strfreev_count =
      (my_application_dispose s).strfreev_count := by
  cases s with
  | mk args fc bc =>
    cases args <;>
      simp [my_application_dispose, g_clear_pointer_strfreev, base_object_dispose]

/-- C8: the startup virtual runs the environment configurator strictly
before delegating to the base framework startup, so the environment the
embedded engine snapshots at graphics-context creation is exactly the
configured one. -/
theorem startup_configures_before_base (w : StartupWorld) :
    (my_application_startup w).log =
      w.log ++ [StartupEvent.configure_env, StartupEvent.base_startup] ∧
    (my_application_startup w).engine_env_snapshot =
      some (configure_mesa_rendering w.env w.display) := by
  simp [my_application_startup, base_framework_startup]

/-- C9: when the configurator triggers, `setenv` is called with the
overwrite flag, so each of the twelve workaround variables ends at its
fixed literal even when it had a different value before. -/
theorem configure_overwrites_existing (e : Env) (display : Option GdkDisplay)
    (h : is_mesa_software_rendering e = true) :
    ∀ p ∈ mesa_env_assignments, ∀ old : String, e p.1 = some old →
      configure_mesa_rendering e display p.1 = some p.2 :=
  fun p hp _ _ => configure_sets e display h p hp

/-- Witness for C9: `vblank_mode` was pre-set to "3" and ends at "0". -/
theorem configure_overwrites_existing_witness :
    env_soft "vblank_mode" = some "3" ∧
    configure_mesa_rendering env_soft disp_x11 "vblank_mode" = some "0" :=
  ⟨by decide,
   configure_overwrites_existing env_soft disp_x11 (by decide)
     ("vblank_mode", "0") (by decide) "3" (by decide)⟩

/-- C10: the local command-line handler returns TRUE on every path, so the
command line is always consumed locally. -/
theorem local_command_line_always_consumes (args : List String) (ok : Bool) :
    (my_application_local_command_line args ok).returned = true := by
  cases ok <;> rfl

end BizSync
